import Mathlib

/-!
Shallow embedding of the test-configuration and oracle-generation engine of
`vktPipelineExtendedDynamicStateTests.cpp` (extended dynamic state conformance
tests): the `StaticAndDynamicPair` value model, the `TestConfig` aggregate with
its swap semantics and derived predicates, the sequence-ordering command
recording policy, the stencil oracle (`stencilPasses` / `stencilResult`) and
the stencil test-case enumeration.

Machine integers: `deUint8` values are modelled as `Nat` carrying the
representation invariant `< 256`; every `static_cast<deUint8>` of a possibly
out-of-range intermediate becomes an explicit `% 256`.  Floats (`tcu::Vec4`
components, depths, scales) are modelled as `Rat`; the embedded logic only
stores and compares them, never computes with them.  Pointers to the
polymorphic `VertexGenerator` strategies are modelled as opaque identifiers.
-/

namespace ExtendedDynamicState

/-- `deUint8` modelled as `Nat` with representation invariant `< 256`. -/
abbrev deUint8 := Nat

/-- `VkCompareOp` constructors in Vulkan declaration order (only the values
this file uses). -/
inductive VkCompareOp where
  | never
  | less
  | equal
  | lessOrEqual
  | greater
  | notEqual
  | greaterOrEqual
  | always
deriving DecidableEq, Repr

/-- `VkStencilOp` constructors in Vulkan declaration order. -/
inductive VkStencilOp where
  | keep
  | zero
  | replace
  | incrementAndClamp
  | decrementAndClamp
  | invert
  | incrementAndWrap
  | decrementAndWrap
deriving DecidableEq, Repr

/-- `bool stencilPasses(vk::VkCompareOp op, deUint8 storedValue, deUint8 referenceValue)`.
The switch handles the seven compare ops the tests enumerate; any other value
hits `DE_ASSERT(false)` and returns `false` (the release-build behaviour). -/
def stencilPasses (op : VkCompareOp) (storedValue referenceValue : deUint8) : Bool :=
  match op with
  | .never => false
  | .less => decide (referenceValue < storedValue)
  | .equal => decide (referenceValue = storedValue)
  | .lessOrEqual => decide (referenceValue ≤ storedValue)
  | .greater => decide (referenceValue > storedValue)
  | .greaterOrEqual => decide (referenceValue ≥ storedValue)
  | .always => true
  | _ => false

/-- `deUint8 stencilResult(vk::VkStencilOp op, deUint8 storedValue, deUint8 referenceValue, deUint8 min, deUint8 max)`.
`static_cast<deUint8>(result + 1)` becomes `(· + 1) % 256`,
`static_cast<deUint8>(result - 1)` becomes `(· + 255) % 256` (two's-complement
wrap of the int-promoted subtraction), and `static_cast<deUint8>(~result)`
becomes `255 - ·` (valid under the `< 256` representation invariant). -/
def stencilResult (op : VkStencilOp) (storedValue referenceValue min max : deUint8) : deUint8 :=
  match op with
  | .keep => storedValue
  | .zero => 0
  | .replace => referenceValue
  | .incrementAndClamp => if storedValue = max then storedValue else (storedValue + 1) % 256
  | .decrementAndClamp => if storedValue = min then storedValue else (storedValue + 255) % 256
  | .invert => 255 - storedValue
  | .incrementAndWrap => if storedValue = max then min else (storedValue + 1) % 256
  | .decrementAndWrap => if storedValue = min then max else (storedValue + 255) % 256

/-- `template<typename T> struct StaticAndDynamicPair`. -/
structure StaticAndDynamicPair (T : Type) where
  staticValue : T
  dynamicValue : Option T
deriving Repr, DecidableEq

/-- `StaticAndDynamicPair<T>::swapValues`: if the dynamic value is present,
swap static and dynamic values; otherwise do nothing. -/
def StaticAndDynamicPair.swapValues {T : Type} (p : StaticAndDynamicPair T) :
    StaticAndDynamicPair T :=
  match p.dynamicValue with
  | none => p
  | some d => { staticValue := d, dynamicValue := some p.staticValue }

/-- The ternary `(pair.dynamicValue && !m_swappedValues) ? pair.dynamicValue.get() : pair.staticValue`
that every `TestConfig::getActive*` query inlines. -/
def StaticAndDynamicPair.active {T : Type} (p : StaticAndDynamicPair T) (swapped : Bool) : T :=
  match p.dynamicValue, swapped with
  | some d, false => d
  | _, _ => p.staticValue

/-- `tcu::Vec4` (red, green, blue, alpha); float components as rationals. -/
abbrev Vec4 := Rat × Rat × Rat × Rat

/-- `const tcu::Vec4 kDefaultTriangleColor (0.0f, 0.0f, 1.0f, 1.0f)` — opaque blue. -/
def kDefaultTriangleColor : Vec4 := (0, 0, 1, 1)

/-- `const tcu::Vec4 kDefaultClearColor (0.0f, 0.0f, 0.0f, 1.0f)` — opaque black. -/
def kDefaultClearColor : Vec4 := (0, 0, 0, 1)

/-- `struct MeshParams` (geometry of one drawn mesh). -/
structure MeshParams where
  color : Vec4
  depth : Rat
  reversed : Bool
  scaleX : Rat
  scaleY : Rat
  offsetX : Rat
  offsetY : Rat
  stripScale : Rat
deriving Repr, DecidableEq

/-- Opaque identifier standing for a `const VertexGenerator*` strategy pointer. -/
abbrev VertexGenerator := Nat

/-- `vk::VkCullModeFlags` bitmask. -/
abbrev VkCullModeFlags := Nat

/-- `vk::VkFrontFace` enum value. -/
abbrev VkFrontFace := Nat

/-- `vk::VkPrimitiveTopology` enum value. -/
abbrev VkPrimitiveTopology := Nat

/-- `vk::VkLogicOp` enum value. -/
abbrev VkLogicOp := Nat

/-- `vk::VkViewport`. -/
structure VkViewport where
  x : Rat
  y : Rat
  width : Rat
  height : Rat
  minDepth : Rat
  maxDepth : Rat
deriving Repr, DecidableEq

/-- `vk::VkRect2D`. -/
structure VkRect2D where
  offsetX : Int
  offsetY : Int
  extentWidth : Nat
  extentHeight : Nat
deriving Repr, DecidableEq

/-- `using ViewportVec = std::vector<vk::VkViewport>` (at least one element). -/
abbrev ViewportVec := List VkViewport

/-- `using ScissorVec = std::vector<vk::VkRect2D>` (at least one element). -/
abbrev ScissorVec := List VkRect2D

/-- `StrideVec`: vector of `vk::VkDeviceSize` strides. -/
abbrev StrideVec := List Nat

/-- `vk::VkStencilFaceFlags` bitmask. -/
abbrev VkStencilFaceFlags := Nat

/-- `struct StencilOpParams`. -/
structure StencilOpParams where
  faceMask : VkStencilFaceFlags
  compareOp : VkCompareOp
  failOp : VkStencilOp
  passOp : VkStencilOp
  depthFailOp : VkStencilOp
deriving Repr, DecidableEq

/-- `using StencilOpVec = std::vector<StencilOpParams>` (at least one element). -/
abbrev StencilOpVec := List StencilOpParams

/-- `struct DepthBiasParams { float constantFactor; float clamp; }`. -/
structure DepthBiasParams where
  constantFactor : Rat
  clamp : Rat
deriving Repr, DecidableEq

/-- `enum class SequenceOrdering`. -/
inductive SequenceOrdering where
  | cmdBufferStart    -- set state at the start of the command buffer
  | beforeDraw        -- after binding dynamic pipeline and just before drawing
  | betweenPipelines  -- after static pipeline bound, before dynamic pipeline bound
  | afterPipelines    -- after both pipelines bound
  | beforeGoodStatic  -- before a static pipeline with the correct values is bound
  | twoDrawsDynamic   -- bad static pipeline + draw, then correct dynamic pipeline + draw
  | twoDrawsStatic    -- bad dynamic pipeline + draw, then correct static pipeline + draw
deriving DecidableEq, Repr

/-- The `TestConfig` aggregate, restricted to the state the embedded logic
reads: the sequence ordering, the nineteen static/dynamic pairs touched by
`swapValues`, the mesh list, the two auxiliary-pipeline flags, and the private
`m_swappedValues` flag. -/
structure TestConfig where
  sequenceOrdering : SequenceOrdering
  vertexGenerator : StaticAndDynamicPair VertexGenerator
  cullModeConfig : StaticAndDynamicPair VkCullModeFlags
  frontFaceConfig : StaticAndDynamicPair VkFrontFace
  topologyConfig : StaticAndDynamicPair VkPrimitiveTopology
  viewportConfig : StaticAndDynamicPair ViewportVec
  scissorConfig : StaticAndDynamicPair ScissorVec
  strideConfig : StaticAndDynamicPair StrideVec
  depthTestEnableConfig : StaticAndDynamicPair Bool
  depthWriteEnableConfig : StaticAndDynamicPair Bool
  depthCompareOpConfig : StaticAndDynamicPair VkCompareOp
  depthBoundsTestEnableConfig : StaticAndDynamicPair Bool
  stencilTestEnableConfig : StaticAndDynamicPair Bool
  stencilOpConfig : StaticAndDynamicPair StencilOpVec
  depthBiasEnableConfig : StaticAndDynamicPair Bool
  rastDiscardEnableConfig : StaticAndDynamicPair Bool
  primRestartEnableConfig : StaticAndDynamicPair Bool
  logicOpConfig : StaticAndDynamicPair VkLogicOp
  patchControlPointsConfig : StaticAndDynamicPair Nat
  depthBiasConfig : StaticAndDynamicPair DepthBiasParams
  meshParams : List MeshParams
  bindUnusedMeshShadingPipeline : Bool
  useExtraDynPCPPipeline : Bool
  m_swappedValues : Bool
deriving Repr, DecidableEq

/-- `TestConfig::getActiveViewportVec`. -/
def TestConfig.getActiveViewportVec (c : TestConfig) : ViewportVec :=
  match c.viewportConfig.dynamicValue, c.m_swappedValues with
  | some v, false => v
  | _, _ => c.viewportConfig.staticValue

/-- `TestConfig::getActiveVertexGenerator`. -/
def TestConfig.getActiveVertexGenerator (c : TestConfig) : VertexGenerator :=
  match c.vertexGenerator.dynamicValue, c.m_swappedValues with
  | some v, false => v
  | _, _ => c.vertexGenerator.staticValue

/-- `TestConfig::getActivePatchControlPoints`. -/
def TestConfig.getActivePatchControlPoints (c : TestConfig) : Nat :=
  match c.patchControlPointsConfig.dynamicValue, c.m_swappedValues with
  | some v, false => v
  | _, _ => c.patchControlPointsConfig.staticValue

/-- `TestConfig::getActiveDepthBiasParams`. -/
def TestConfig.getActiveDepthBiasParams (c : TestConfig) : DepthBiasParams :=
  match c.depthBiasConfig.dynamicValue, c.m_swappedValues with
  | some v, false => v
  | _, _ => c.depthBiasConfig.staticValue

/-- `TestConfig::getActivePrimitiveRestartEnable`. -/
def TestConfig.getActivePrimitiveRestartEnable (c : TestConfig) : Bool :=
  match c.primRestartEnableConfig.dynamicValue, c.m_swappedValues with
  | some v, false => v
  | _, _ => c.primRestartEnableConfig.staticValue

/-- `TestConfig::isReversed`. -/
def TestConfig.isReversed (c : TestConfig) : Bool :=
  c.sequenceOrdering = SequenceOrdering.beforeGoodStatic ∨
  c.sequenceOrdering = SequenceOrdering.twoDrawsStatic

/-- `TestConfig::swapValues`: swap every pair and toggle `m_swappedValues`. -/
def TestConfig.swapValues (c : TestConfig) : TestConfig :=
  { c with
    vertexGenerator := c.vertexGenerator.swapValues
    cullModeConfig := c.cullModeConfig.swapValues
    frontFaceConfig := c.frontFaceConfig.swapValues
    topologyConfig := c.topologyConfig.swapValues
    viewportConfig := c.viewportConfig.swapValues
    scissorConfig := c.scissorConfig.swapValues
    strideConfig := c.strideConfig.swapValues
    depthTestEnableConfig := c.depthTestEnableConfig.swapValues
    depthWriteEnableConfig := c.depthWriteEnableConfig.swapValues
    depthCompareOpConfig := c.depthCompareOpConfig.swapValues
    depthBoundsTestEnableConfig := c.depthBoundsTestEnableConfig.swapValues
    stencilTestEnableConfig := c.stencilTestEnableConfig.swapValues
    stencilOpConfig := c.stencilOpConfig.swapValues
    depthBiasEnableConfig := c.depthBiasEnableConfig.swapValues
    rastDiscardEnableConfig := c.rastDiscardEnableConfig.swapValues
    primRestartEnableConfig := c.primRestartEnableConfig.swapValues
    logicOpConfig := c.logicOpConfig.swapValues
    patchControlPointsConfig := c.patchControlPointsConfig.swapValues
    depthBiasConfig := c.depthBiasConfig.swapValues
    m_swappedValues := !c.m_swappedValues }

/-- `TestConfig::numIterations`. -/
def TestConfig.numIterations (c : TestConfig) : Nat :=
  match c.sequenceOrdering with
  | .twoDrawsDynamic | .twoDrawsStatic => 2
  | _ => 1

/-- `vk::VkDynamicState`, restricted to the nineteen values
`TestConfig::getDynamicStates` can emit. -/
inductive VkDynamicState where
  | depthBias
  | cullMode
  | frontFace
  | primitiveTopology
  | viewportWithCount
  | scissorWithCount
  | vertexInputBindingStride
  | depthTestEnable
  | depthWriteEnable
  | depthCompareOp
  | depthBoundsTestEnable
  | stencilTestEnable
  | stencilOp
  | vertexInput
  | patchControlPoints
  | rasterizerDiscardEnable
  | depthBiasEnable
  | logicOp
  | primitiveRestartEnable
deriving DecidableEq, Repr

/-- `bool isMeshShadingPipelineIncompatible(vk::VkDynamicState state)`: five
states are incompatible with mesh shading pipelines, all others compatible. -/
def isMeshShadingPipelineIncompatible (state : VkDynamicState) : Bool :=
  match state with
  | .primitiveTopology => true
  | .vertexInputBindingStride => true
  | .primitiveRestartEnable => true
  | .patchControlPoints => true
  | .vertexInput => true
  | _ => false

/-- `TestConfig::getDynamicStates`: one push per pair with a dynamic value, in
source order. -/
def TestConfig.getDynamicStates (c : TestConfig) : List VkDynamicState :=
  (if c.depthBiasConfig.dynamicValue.isSome then [VkDynamicState.depthBias] else []) ++
  (if c.cullModeConfig.dynamicValue.isSome then [VkDynamicState.cullMode] else []) ++
  (if c.frontFaceConfig.dynamicValue.isSome then [VkDynamicState.frontFace] else []) ++
  (if c.topologyConfig.dynamicValue.isSome then [VkDynamicState.primitiveTopology] else []) ++
  (if c.viewportConfig.dynamicValue.isSome then [VkDynamicState.viewportWithCount] else []) ++
  (if c.scissorConfig.dynamicValue.isSome then [VkDynamicState.scissorWithCount] else []) ++
  (if c.strideConfig.dynamicValue.isSome then [VkDynamicState.vertexInputBindingStride] else []) ++
  (if c.depthTestEnableConfig.dynamicValue.isSome then [VkDynamicState.depthTestEnable] else []) ++
  (if c.depthWriteEnableConfig.dynamicValue.isSome then [VkDynamicState.depthWriteEnable] else []) ++
  (if c.depthCompareOpConfig.dynamicValue.isSome then [VkDynamicState.depthCompareOp] else []) ++
  (if c.depthBoundsTestEnableConfig.dynamicValue.isSome then [VkDynamicState.depthBoundsTestEnable] else []) ++
  (if c.stencilTestEnableConfig.dynamicValue.isSome then [VkDynamicState.stencilTestEnable] else []) ++
  (if c.stencilOpConfig.dynamicValue.isSome then [VkDynamicState.stencilOp] else []) ++
  (if c.vertexGenerator.dynamicValue.isSome then [VkDynamicState.vertexInput] else []) ++
  (if c.patchControlPointsConfig.dynamicValue.isSome then [VkDynamicState.patchControlPoints] else []) ++
  (if c.rastDiscardEnableConfig.dynamicValue.isSome then [VkDynamicState.rasterizerDiscardEnable] else []) ++
  (if c.depthBiasEnableConfig.dynamicValue.isSome then [VkDynamicState.depthBiasEnable] else []) ++
  (if c.logicOpConfig.dynamicValue.isSome then [VkDynamicState.logicOp] else []) ++
  (if c.primRestartEnableConfig.dynamicValue.isSome then [VkDynamicState.primitiveRestartEnable] else [])

/-- `TestConfig::badMeshShadingPipelineDynState`:
`std::any_of(begin(states), end(states), isMeshShadingPipelineIncompatible)`. -/
def TestConfig.badMeshShadingPipelineDynState (c : TestConfig) : Bool :=
  c.getDynamicStates.any isMeshShadingPipelineIncompatible

/-- The pipelines `ExtendedDynamicStateInstance::iterate` may bind. -/
inductive Pipeline where
  | staticPipeline     -- `staticPipeline` (intentionally-wrong static values in non-reversed cases)
  | dynamicPipeline    -- `graphicsPipeline` (the dynamic-state pipeline)
  | meshNoOutPipeline  -- `meshNoOutPipeline` (unused mesh-shading pipeline)
  | extraDynPCPPipeline -- `extraDynPCPPipeline` (helper patch-control-points pipeline)
deriving DecidableEq, Repr

/-- The commands of `ExtendedDynamicStateInstance::iterate`'s recording loop
that the sequence-ordering policy places: dynamic-state sets, pipeline binds
and draws.  Buffer/descriptor/push-constant commands are orthogonal to the
placement policy and are not modelled. -/
inductive Cmd where
  | setDynamicStates       -- `setDynamicStates(m_testConfig, vkd, cmdBuffer)`
  | setPatchControlPoints  -- the lone `cmdSetPatchControlPointsEXT` for the helper pipeline
  | bindPipeline (p : Pipeline)
  | drawHelper             -- the 3-vertex `cmdDraw` through `extraDynPCPPipeline`
  | draw                   -- the per-viewport per-mesh draw (`cmdDraw` / `cmdDrawIndexed` / `cmdDrawMeshTasksEXT`)
deriving DecidableEq, Repr

/-- `const bool bindStaticFirst = (kSequenceOrdering == BETWEEN_PIPELINES ||
kSequenceOrdering == AFTER_PIPELINES || kSequenceOrdering == TWO_DRAWS_DYNAMIC)`. -/
def bindStaticFirst (c : TestConfig) : Bool :=
  c.sequenceOrdering = SequenceOrdering.betweenPipelines ∨
  c.sequenceOrdering = SequenceOrdering.afterPipelines ∨
  c.sequenceOrdering = SequenceOrdering.twoDrawsDynamic

/-- The innermost per-viewport, per-mesh draw loop: for each active viewport
and each mesh, maybe set dynamic state (`BEFORE_DRAW` / `AFTER_PIPELINES`) and
then draw. -/
def drawCommands (c : TestConfig) : List Cmd :=
  c.getActiveViewportVec.flatMap fun _ =>
    c.meshParams.flatMap fun _ =>
      (if c.sequenceOrdering = SequenceOrdering.beforeDraw ∨
          c.sequenceOrdering = SequenceOrdering.afterPipelines
       then [Cmd.setDynamicStates] else []) ++ [Cmd.draw]

/-- One iteration of the command-recording loop of
`ExtendedDynamicStateInstance::iterate`, keeping the source's placement
conditions on `kSequenceOrdering` and `iteration` verbatim. -/
def recordIteration (c : TestConfig) (iteration : Nat) : List Cmd :=
  let ko := c.sequenceOrdering
  -- Maybe set extended dynamic state at the start of the command buffer.
  (if ko = SequenceOrdering.cmdBufferStart then [Cmd.setDynamicStates] else []) ++
  -- Bind a static pipeline first if needed.
  (if bindStaticFirst c ∧ iteration = 0 then [Cmd.bindPipeline Pipeline.staticPipeline] else []) ++
  -- Maybe set extended dynamic state between the two pipelines.
  (if ko = SequenceOrdering.betweenPipelines then [Cmd.setDynamicStates] else []) ++
  -- Bind dynamic pipeline (with the optional helper pipelines before it).
  (if (ko ≠ SequenceOrdering.twoDrawsDynamic ∧ ko ≠ SequenceOrdering.twoDrawsStatic) ∨
      (ko = SequenceOrdering.twoDrawsDynamic ∧ iteration > 0) ∨
      (ko = SequenceOrdering.twoDrawsStatic ∧ iteration = 0)
   then
     (if c.bindUnusedMeshShadingPipeline then [Cmd.bindPipeline Pipeline.meshNoOutPipeline] else []) ++
     (if c.useExtraDynPCPPipeline then
        [Cmd.bindPipeline Pipeline.extraDynPCPPipeline] ++
        (if ko ≠ SequenceOrdering.cmdBufferStart ∧ ko ≠ SequenceOrdering.betweenPipelines
         then [Cmd.setPatchControlPoints] else []) ++
        [Cmd.drawHelper]
      else []) ++
     [Cmd.bindPipeline Pipeline.dynamicPipeline]
   else []) ++
  -- Maybe set extended dynamic state after the dynamic pipeline bind.
  (if ko = SequenceOrdering.beforeGoodStatic ∨
      (ko = SequenceOrdering.twoDrawsDynamic ∧ iteration > 0) ∨
      (ko = SequenceOrdering.twoDrawsStatic ∧ iteration = 0)
   then [Cmd.setDynamicStates] else []) ++
  -- Bind a static pipeline last if needed.
  (if ko = SequenceOrdering.beforeGoodStatic ∨
      (ko = SequenceOrdering.twoDrawsStatic ∧ iteration > 0)
   then [Cmd.bindPipeline Pipeline.staticPipeline] else []) ++
  drawCommands c

/-- The full recording of `ExtendedDynamicStateInstance::iterate`: read
`kReversed` and `kNumIterations`, swap the configuration's static and dynamic
values exactly once when reversed, then record every iteration. -/
def recordedCommands (c : TestConfig) : List (List Cmd) :=
  let kReversed := c.isReversed
  let kNumIterations := c.numIterations
  let c2 := if kReversed then c.swapValues else c
  (List.range kNumIterations).map (recordIteration c2)

/-- `kFaces` of the stencil test generator: front, back, front-and-back with a
single call, and the `VK_STENCIL_FACE_FLAG_BITS_MAX_ENUM` placeholder for the
dual-call variant. -/
def kFaces : List VkStencilFaceFlags := [1, 2, 3, 0x7FFFFFFF]

/-- `kCompare` of the stencil test generator. -/
def kCompare : List VkCompareOp :=
  [.never, .less, .equal, .lessOrEqual, .greater, .greaterOrEqual, .always]

/-- `kMinVal = std::numeric_limits<deUint8>::min()`. -/
def kMinVal : deUint8 := 0

/-- `kMaxVal = std::numeric_limits<deUint8>::max()`. -/
def kMaxVal : deUint8 := 255

/-- `kMidVal = static_cast<deUint8>(kMaxVal * 2u / 5u)`. -/
def kMidVal : deUint8 := kMaxVal * 2 / 5

/-- One row of the `kStencilOps` table. -/
structure StencilOpCase where
  stencilOp : VkStencilOp
  name : String
  clearValues : List deUint8
  incompatibleOp : VkStencilOp
deriving Repr, DecidableEq

/-- The `kStencilOps` table. -/
def kStencilOps : List StencilOpCase :=
  [ ⟨.keep, "keep", [kMidVal], .zero⟩,
    ⟨.zero, "zero", [kMidVal], .keep⟩,
    ⟨.replace, "replace", [kMidVal], .zero⟩,
    ⟨.incrementAndClamp, "inc_clamp", [kMaxVal - 1, kMaxVal], .zero⟩,
    ⟨.decrementAndClamp, "dec_clamp", [kMinVal + 1, kMinVal], .incrementAndClamp⟩,
    ⟨.invert, "invert", [kMidVal], .zero⟩,
    ⟨.incrementAndWrap, "inc_wrap", [kMaxVal - 1, kMaxVal], .keep⟩,
    ⟨.decrementAndWrap, "dec_wrap", [kMinVal + 1, kMinVal], .keep⟩ ]

/-- The reference values tried for one clear value: `refVal = clearVal + delta`
for `delta = -1, 0, 1` in plain `int` arithmetic, skipped when outside
`[kMinValI, kMaxValI] = [0, 255]`. -/
def stencilRefVals (clearVal : deUint8) : List Int :=
  ([-1, 0, 1] : List Int).filterMap fun delta =>
    let refVal : Int := (clearVal : Int) + delta
    if refVal < 0 ∨ refVal > 255 then none else some refVal

/-- The claim-relevant outcome of one generated stencil test case: the inputs,
the depth-fail flag, the combined stencil+depth verdict, the expected rendered
color (`SingleColorGenerator` argument) and the expected final stencil value. -/
structure StencilSubCase where
  faceMask : VkStencilFaceFlags
  compareOp : VkCompareOp
  stencilOp : VkStencilOp
  clearStencilValue : deUint8
  referenceStencil : Nat
  depthFail : Bool
  globalPass : Bool
  referenceColor : Vec4
  expectedStencil : deUint8
deriving DecidableEq, Repr

/-- The sub-cases generated for one `(face, compareOp, stencilOp, clearVal,
refVal)` tuple: compute `wouldPass`, emit `2` sub-cases when it holds (the
second being the depth-fail variant) and `1` otherwise, and fill in the
expected color and expected stencil value exactly as the enumerator does. -/
def stencilSubCases (face : VkStencilFaceFlags) (compareOp : VkCompareOp)
    (opCase : StencilOpCase) (clearVal refVal : deUint8) : List StencilSubCase :=
  let wouldPass := stencilPasses compareOp clearVal refVal
  let subCases := if wouldPass then 2 else 1
  (List.range subCases).map fun subCaseIdx =>
    let depthFail := decide (subCaseIdx > 0)
    let globalPass := wouldPass && !depthFail
    { faceMask := face
      compareOp := compareOp
      stencilOp := opCase.stencilOp
      clearStencilValue := clearVal
      referenceStencil := refVal
      depthFail := depthFail
      globalPass := globalPass
      referenceColor := if globalPass then kDefaultTriangleColor else kDefaultClearColor
      expectedStencil := stencilResult opCase.stencilOp clearVal refVal kMinVal kMaxVal }

/-- The full stencil-state test enumeration: faces × compare ops × stencil ops
× clear values × in-range reference values × sub-cases. -/
def stencilTestCases : List StencilSubCase :=
  kFaces.flatMap fun face =>
    kCompare.flatMap fun compareOp =>
      kStencilOps.flatMap fun opCase =>
        opCase.clearValues.flatMap fun clearVal =>
          (stencilRefVals clearVal).flatMap fun refVal =>
            stencilSubCases face compareOp opCase clearVal refVal.toNat

/-- A concrete configuration (one viewport, one mesh, a dynamic cull-mode
override, everything else static) used to instantiate the theorems below. -/
def exampleConfig (o : SequenceOrdering) : TestConfig where
  sequenceOrdering := o
  vertexGenerator := ⟨0, none⟩
  cullModeConfig := ⟨1, some 0⟩
  frontFaceConfig := ⟨0, none⟩
  topologyConfig := ⟨3, none⟩
  viewportConfig := ⟨[⟨0, 0, 64, 64, 0, 1⟩], none⟩
  scissorConfig := ⟨[⟨0, 0, 64, 64⟩], none⟩
  strideConfig := ⟨[16], none⟩
  depthTestEnableConfig := ⟨false, none⟩
  depthWriteEnableConfig := ⟨false, none⟩
  depthCompareOpConfig := ⟨VkCompareOp.never, none⟩
  depthBoundsTestEnableConfig := ⟨false, none⟩
  stencilTestEnableConfig := ⟨false, none⟩
  stencilOpConfig := ⟨[⟨3, VkCompareOp.never, VkStencilOp.keep, VkStencilOp.keep, VkStencilOp.keep⟩], none⟩
  depthBiasEnableConfig := ⟨false, none⟩
  rastDiscardEnableConfig := ⟨false, none⟩
  primRestartEnableConfig := ⟨false, none⟩
  logicOpConfig := ⟨0, none⟩
  patchControlPointsConfig := ⟨1, none⟩
  depthBiasConfig := ⟨⟨0, 0⟩, none⟩
  meshParams := [⟨kDefaultTriangleColor, 0, false, 1, 1, 0, 0, 0⟩]
  bindUnusedMeshShadingPipeline := false
  useExtraDynPCPPipeline := false
  m_swappedValues := false

/-! ## Helper lemmas -/

theorem StaticAndDynamicPair.swap_swap {T : Type} (p : StaticAndDynamicPair T) :
    p.swapValues.swapValues = p := by
  obtain ⟨s, d⟩ := p
  cases d <;> simp [StaticAndDynamicPair.swapValues]

theorem StaticAndDynamicPair.swap_static_of_dyn {T : Type} (p : StaticAndDynamicPair T)
    (d : T) (h : p.dynamicValue = some d) : p.swapValues.staticValue = d := by
  simp [StaticAndDynamicPair.swapValues, h]

theorem StaticAndDynamicPair.active_swap {T : Type} (p : StaticAndDynamicPair T) (b : Bool) :
    p.swapValues.active (!b) = p.active b := by
  cases h : p.dynamicValue <;> cases b <;>
    simp [StaticAndDynamicPair.swapValues, StaticAndDynamicPair.active, h]

theorem TestConfig.getActiveViewportVec_eq (c : TestConfig) :
    c.getActiveViewportVec = c.viewportConfig.active c.m_swappedValues := by
  cases h : c.viewportConfig.dynamicValue <;> cases hb : c.m_swappedValues <;>
    simp [TestConfig.getActiveViewportVec, StaticAndDynamicPair.active, h, hb]

theorem TestConfig.getActiveVertexGenerator_eq (c : TestConfig) :
    c.getActiveVertexGenerator = c.vertexGenerator.active c.m_swappedValues := by
  cases h : c.vertexGenerator.dynamicValue <;> cases hb : c.m_swappedValues <;>
    simp [TestConfig.getActiveVertexGenerator, StaticAndDynamicPair.active, h, hb]

theorem TestConfig.getActivePatchControlPoints_eq (c : TestConfig) :
    c.getActivePatchControlPoints = c.patchControlPointsConfig.active c.m_swappedValues := by
  cases h : c.patchControlPointsConfig.dynamicValue <;> cases hb : c.m_swappedValues <;>
    simp [TestConfig.getActivePatchControlPoints, StaticAndDynamicPair.active, h, hb]

theorem TestConfig.getActiveDepthBiasParams_eq (c : TestConfig) :
    c.getActiveDepthBiasParams = c.depthBiasConfig.active c.m_swappedValues := by
  cases h : c.depthBiasConfig.dynamicValue <;> cases hb : c.m_swappedValues <;>
    simp [TestConfig.getActiveDepthBiasParams, StaticAndDynamicPair.active, h, hb]

theorem TestConfig.getActivePrimitiveRestartEnable_eq (c : TestConfig) :
    c.getActivePrimitiveRestartEnable = c.primRestartEnableConfig.active c.m_swappedValues := by
  cases h : c.primRestartEnableConfig.dynamicValue <;> cases hb : c.m_swappedValues <;>
    simp [TestConfig.getActivePrimitiveRestartEnable, StaticAndDynamicPair.active, h, hb]

theorem TestConfig.getActiveViewportVec_swap (c : TestConfig) :
    c.swapValues.getActiveViewportVec = c.getActiveViewportVec := by
  rw [TestConfig.getActiveViewportVec_eq, TestConfig.getActiveViewportVec_eq]
  exact StaticAndDynamicPair.active_swap c.viewportConfig c.m_swappedValues

theorem draw_mem_drawCommands (c : TestConfig)
    (hv : c.getActiveViewportVec ≠ []) (hm : c.meshParams ≠ []) :
    Cmd.draw ∈ drawCommands c := by
  obtain ⟨v, hv'⟩ := List.exists_mem_of_ne_nil _ hv
  obtain ⟨m, hm'⟩ := List.exists_mem_of_ne_nil _ hm
  exact List.mem_flatMap.mpr ⟨v, hv', List.mem_flatMap.mpr ⟨m, hm', by simp⟩⟩

theorem mem_drawCommands {c : TestConfig} {x : Cmd} (hx : x ∈ drawCommands c) :
    x = Cmd.setDynamicStates ∨ x = Cmd.draw := by
  simp only [drawCommands, List.mem_flatMap] at hx
  obtain ⟨v, -, m, -, hb⟩ := hx
  rcases List.mem_append.mp hb with h1 | h2
  · split at h1 <;> simp at h1
    exact Or.inl h1
  · simp at h2
    exact Or.inr h2

theorem setDynamicStates_not_mem_drawCommands (c : TestConfig)
    (h : ¬(c.sequenceOrdering = SequenceOrdering.beforeDraw ∨
           c.sequenceOrdering = SequenceOrdering.afterPipelines)) :
    Cmd.setDynamicStates ∉ drawCommands c := by
  intro hx
  simp only [drawCommands, List.mem_flatMap] at hx
  obtain ⟨v, -, m, -, hb⟩ := hx
  rw [if_neg h] at hb
  simp at hb

/-! ## Claim theorems -/

/-- C1: `stencilPasses(op, stored, reference)` compares `reference OP stored`
(not `stored OP reference`): `NEVER` gives `false`, `ALWAYS` gives `true`,
`LESS` gives `reference < stored`, `EQUAL` gives `reference == stored`,
`LESS_OR_EQUAL` gives `reference <= stored`, `GREATER` gives
`reference > stored`, `GREATER_OR_EQUAL` gives `reference >= stored`; in
particular `stencilPasses(LESS, 10, 5) = true` and
`stencilPasses(LESS, 5, 10) = false`. -/
theorem stencilPasses_reference_op_stored :
    (∀ stored ref : deUint8,
      stencilPasses VkCompareOp.never stored ref = false ∧
      stencilPasses VkCompareOp.always stored ref = true ∧
      (stencilPasses VkCompareOp.less stored ref = true ↔ ref < stored) ∧
      (stencilPasses VkCompareOp.equal stored ref = true ↔ ref = stored) ∧
      (stencilPasses VkCompareOp.lessOrEqual stored ref = true ↔ ref ≤ stored) ∧
      (stencilPasses VkCompareOp.greater stored ref = true ↔ stored < ref) ∧
      (stencilPasses VkCompareOp.greaterOrEqual stored ref = true ↔ stored ≤ ref)) ∧
    stencilPasses VkCompareOp.less 10 5 = true ∧
    stencilPasses VkCompareOp.less 5 10 = false := by
  refine ⟨fun stored ref => ?_, by decide, by decide⟩
  refine ⟨rfl, rfl, ?_, ?_, ?_, ?_, ?_⟩ <;> simp [stencilPasses]

/-- C2: `stencilResult(op, stored, reference, min, max)` returns `stored` for
`KEEP`, `0` for `ZERO`, `reference` for `REPLACE`, clamps at `max`/`min` for
the CLAMP increments/decrements, wraps to `min`/`max` for the WRAP
increments/decrements (with 8-bit wraparound on the `+1`/`-1` casts), and the
bitwise complement of `stored` for `INVERT`; in particular with `min = 0`,
`max = 255`: `INCREMENT_AND_CLAMP` at `stored = 255` returns `255`,
`INCREMENT_AND_WRAP` at `stored = 255` returns `0`, and `DECREMENT_AND_WRAP`
at `stored = 0` returns `255`. -/
theorem stencilResult_op_table :
    (∀ stored ref min max : deUint8,
      stencilResult VkStencilOp.keep stored ref min max = stored ∧
      stencilResult VkStencilOp.zero stored ref min max = 0 ∧
      stencilResult VkStencilOp.replace stored ref min max = ref ∧
      stencilResult VkStencilOp.incrementAndClamp stored ref min max =
        (if stored = max then stored else (stored + 1) % 256) ∧
      stencilResult VkStencilOp.decrementAndClamp stored ref min max =
        (if stored = min then stored else (stored + 255) % 256) ∧
      stencilResult VkStencilOp.incrementAndWrap stored ref min max =
        (if stored = max then min else (stored + 1) % 256) ∧
      stencilResult VkStencilOp.decrementAndWrap stored ref min max =
        (if stored = min then max else (stored + 255) % 256)) ∧
    (∀ (stored : Fin 256) (ref min max : deUint8),
      stencilResult VkStencilOp.invert stored.val ref min max = stored.val ^^^ 255) ∧
    (∀ ref : deUint8,
      stencilResult VkStencilOp.incrementAndClamp 255 ref 0 255 = 255 ∧
      stencilResult VkStencilOp.incrementAndWrap 255 ref 0 255 = 0 ∧
      stencilResult VkStencilOp.decrementAndWrap 0 ref 0 255 = 255) := by
  refine ⟨fun stored ref mn mx => ⟨rfl, rfl, rfl, rfl, rfl, rfl, rfl⟩, fun s ref mn mx => ?_,
    fun ref => ⟨by simp [stencilResult], by simp [stencilResult], by simp [stencilResult]⟩⟩
  show 255 - s.val = s.val ^^^ 255
  revert s
  set_option maxRecDepth 8192 in decide

/-- C3: the active-value query returns the dynamic value exactly when a
dynamic value is present and the swapped flag is false, and the static value
otherwise; consequently a pair with no dynamic value is left unchanged by
`swapValues` and its active value is the static value for both flag values.
The `getActive*` queries of `TestConfig` are instances of this pattern. -/
theorem staticAndDynamicPair_active_spec :
    (∀ (T : Type) (p : StaticAndDynamicPair T),
      (∀ d : T, p.dynamicValue = some d →
        p.active false = d ∧ p.active true = p.staticValue) ∧
      (p.dynamicValue = none →
        p.swapValues = p ∧ ∀ b : Bool, p.active b = p.staticValue)) ∧
    (∀ cfg : TestConfig,
      cfg.getActiveViewportVec = cfg.viewportConfig.active cfg.m_swappedValues) := by
  refine ⟨fun T p => ⟨fun d h => ?_, fun h => ?_⟩, fun cfg => cfg.getActiveViewportVec_eq⟩
  · simp [StaticAndDynamicPair.active, h]
  · refine ⟨by simp [StaticAndDynamicPair.swapValues, h], fun b => ?_⟩
    cases b <;> simp [StaticAndDynamicPair.active, h]

/-- C3 witness: concrete pairs exercising both hypotheses. -/
theorem staticAndDynamicPair_active_witness :
    (StaticAndDynamicPair.mk 1 (some 2) : StaticAndDynamicPair Nat).active false = 2 ∧
    (StaticAndDynamicPair.mk 1 none : StaticAndDynamicPair Nat).active true = 1 :=
  ⟨((staticAndDynamicPair_active_spec.1 Nat ⟨1, some 2⟩).1 2 rfl).1,
   ((staticAndDynamicPair_active_spec.1 Nat ⟨1, none⟩).2 rfl).2 true⟩

/-- C6: for a pair with both values, one `swapValues` exchanges static and
dynamic contents and a second `swapValues` restores the original; the
aggregate `TestConfig::swapValues` is likewise an involution. -/
theorem swapValues_involution :
    (∀ (T : Type) (p : StaticAndDynamicPair T) (d : T),
      p.dynamicValue = some d →
        p.swapValues.staticValue = d ∧
        p.swapValues.dynamicValue = some p.staticValue ∧
        p.swapValues.swapValues = p) ∧
    (∀ cfg : TestConfig, cfg.swapValues.swapValues = cfg) := by
  constructor
  · intro T p d h
    refine ⟨StaticAndDynamicPair.swap_static_of_dyn p d h, ?_, StaticAndDynamicPair.swap_swap p⟩
    simp [StaticAndDynamicPair.swapValues, h]
  · intro cfg
    simp [TestConfig.swapValues, StaticAndDynamicPair.swap_swap]

/-- C6 witness: a concrete pair with both values set. -/
theorem swapValues_involution_witness :
    (StaticAndDynamicPair.mk 1 (some 2) : StaticAndDynamicPair Nat).swapValues.staticValue = 2 ∧
    (StaticAndDynamicPair.mk 1 (some 2) : StaticAndDynamicPair Nat).swapValues.swapValues =
      StaticAndDynamicPair.mk 1 (some 2) :=
  ⟨(swapValues_involution.1 Nat ⟨1, some 2⟩ 2 rfl).1,
   (swapValues_involution.1 Nat ⟨1, some 2⟩ 2 rfl).2.2⟩

/-- C7: `isMeshShadingPipelineIncompatible` is true exactly for primitive
topology, vertex-input binding stride, primitive-restart enable, patch control
points and full vertex input; and `badMeshShadingPipelineDynState` holds
exactly when some element of the configuration's dynamic-state list is one of
those five. -/
theorem meshShading_incompatible_spec :
    (∀ s : VkDynamicState, isMeshShadingPipelineIncompatible s = true ↔
      (s = VkDynamicState.primitiveTopology ∨
       s = VkDynamicState.vertexInputBindingStride ∨
       s = VkDynamicState.primitiveRestartEnable ∨
       s = VkDynamicState.patchControlPoints ∨
       s = VkDynamicState.vertexInput)) ∧
    (∀ cfg : TestConfig, cfg.badMeshShadingPipelineDynState = true ↔
      ∃ s ∈ cfg.getDynamicStates, isMeshShadingPipelineIncompatible s = true) := by
  constructor
  · intro s
    cases s <;> simp [isMeshShadingPipelineIncompatible]
  · intro cfg
    simp [TestConfig.badMeshShadingPipelineDynState, List.any_eq_true]

/-- C10: every active-value query returns the same result before and after
`TestConfig::swapValues`: the swap exchanges every pair's contents and toggles
the `m_swappedValues` flag the queries consult, so observable active values
are invariant. -/
theorem getActive_swap_invariant :
    ∀ cfg : TestConfig,
      cfg.swapValues.getActiveViewportVec = cfg.getActiveViewportVec ∧
      cfg.swapValues.getActiveVertexGenerator = cfg.getActiveVertexGenerator ∧
      cfg.swapValues.getActivePatchControlPoints = cfg.getActivePatchControlPoints ∧
      cfg.swapValues.getActiveDepthBiasParams = cfg.getActiveDepthBiasParams ∧
      cfg.swapValues.getActivePrimitiveRestartEnable = cfg.getActivePrimitiveRestartEnable := by
  intro cfg
  refine ⟨?_, ?_, ?_, ?_, ?_⟩
  · rw [TestConfig.getActiveViewportVec_eq, TestConfig.getActiveViewportVec_eq]
    exact StaticAndDynamicPair.active_swap cfg.viewportConfig cfg.m_swappedValues
  · rw [TestConfig.getActiveVertexGenerator_eq, TestConfig.getActiveVertexGenerator_eq]
    exact StaticAndDynamicPair.active_swap cfg.vertexGenerator cfg.m_swappedValues
  · rw [TestConfig.getActivePatchControlPoints_eq, TestConfig.getActivePatchControlPoints_eq]
    exact StaticAndDynamicPair.active_swap cfg.patchControlPointsConfig cfg.m_swappedValues
  · rw [TestConfig.getActiveDepthBiasParams_eq, TestConfig.getActiveDepthBiasParams_eq]
    exact StaticAndDynamicPair.active_swap cfg.depthBiasConfig cfg.m_swappedValues
  · rw [TestConfig.getActivePrimitiveRestartEnable_eq, TestConfig.getActivePrimitiveRestartEnable_eq]
    exact StaticAndDynamicPair.active_swap cfg.primRestartEnableConfig cfg.m_swappedValues

/-- C5: `isReversed()` holds exactly for the `BEFORE_GOOD_STATIC` and
`TWO_DRAWS_STATIC` orderings; when it holds, the recording swaps the
configuration's values exactly once before recording any iteration, and after
`swapValues` the static value of every field with a dynamic override equals
the original dynamic value. -/
theorem isReversed_spec :
    ∀ cfg : TestConfig,
      (cfg.isReversed = true ↔
        (cfg.sequenceOrdering = SequenceOrdering.beforeGoodStatic ∨
         cfg.sequenceOrdering = SequenceOrdering.twoDrawsStatic)) ∧
      (cfg.isReversed = true →
        recordedCommands cfg =
          (List.range cfg.numIterations).map (recordIteration cfg.swapValues)) ∧
      (∀ d, cfg.vertexGenerator.dynamicValue = some d →
        cfg.swapValues.vertexGenerator.staticValue = d) ∧
      (∀ d, cfg.cullModeConfig.dynamicValue = some d →
        cfg.swapValues.cullModeConfig.staticValue = d) ∧
      (∀ d, cfg.frontFaceConfig.dynamicValue = some d →
        cfg.swapValues.frontFaceConfig.staticValue = d) ∧
      (∀ d, cfg.topologyConfig.dynamicValue = some d →
        cfg.swapValues.topologyConfig.staticValue = d) ∧
      (∀ d, cfg.viewportConfig.dynamicValue = some d →
        cfg.swapValues.viewportConfig.staticValue = d) ∧
      (∀ d, cfg.scissorConfig.dynamicValue = some d →
        cfg.swapValues.scissorConfig.staticValue = d) ∧
      (∀ d, cfg.strideConfig.dynamicValue = some d →
        cfg.swapValues.strideConfig.staticValue = d) ∧
      (∀ d, cfg.depthTestEnableConfig.dynamicValue = some d →
        cfg.swapValues.depthTestEnableConfig.staticValue = d) ∧
      (∀ d, cfg.depthWriteEnableConfig.dynamicValue = some d →
        cfg.swapValues.depthWriteEnableConfig.staticValue = d) ∧
      (∀ d, cfg.depthCompareOpConfig.dynamicValue = some d →
        cfg.swapValues.depthCompareOpConfig.staticValue = d) ∧
      (∀ d, cfg.depthBoundsTestEnableConfig.dynamicValue = some d →
        cfg.swapValues.depthBoundsTestEnableConfig.staticValue = d) ∧
      (∀ d, cfg.stencilTestEnableConfig.dynamicValue = some d →
        cfg.swapValues.stencilTestEnableConfig.staticValue = d) ∧
      (∀ d, cfg.stencilOpConfig.dynamicValue = some d →
        cfg.swapValues.stencilOpConfig.staticValue = d) ∧
      (∀ d, cfg.depthBiasEnableConfig.dynamicValue = some d →
        cfg.swapValues.depthBiasEnableConfig.staticValue = d) ∧
      (∀ d, cfg.rastDiscardEnableConfig.dynamicValue = some d →
        cfg.swapValues.rastDiscardEnableConfig.staticValue = d) ∧
      (∀ d, cfg.primRestartEnableConfig.dynamicValue = some d →
        cfg.swapValues.primRestartEnableConfig.staticValue = d) ∧
      (∀ d, cfg.logicOpConfig.dynamicValue = some d →
        cfg.swapValues.logicOpConfig.staticValue = d) ∧
      (∀ d, cfg.patchControlPointsConfig.dynamicValue = some d →
        cfg.swapValues.patchControlPointsConfig.staticValue = d) ∧
      (∀ d, cfg.depthBiasConfig.dynamicValue = some d →
        cfg.swapValues.depthBiasConfig.staticValue = d) := by
  intro cfg
  refine ⟨?_, ?_, ?_, ?_, ?_, ?_, ?_, ?_, ?_, ?_, ?_, ?_, ?_, ?_, ?_, ?_, ?_, ?_, ?_, ?_, ?_⟩
  · simp [TestConfig.isReversed]
  · intro h
    simp [recordedCommands, h]
  all_goals exact fun d h => StaticAndDynamicPair.swap_static_of_dyn _ d h

/-- C5 witness: the example configuration at `BEFORE_GOOD_STATIC` is reversed,
and its swapped cull-mode static value is the original dynamic value. -/
theorem isReversed_witness :
    (exampleConfig SequenceOrdering.beforeGoodStatic).isReversed = true ∧
    (exampleConfig SequenceOrdering.beforeGoodStatic).swapValues.cullModeConfig.staticValue = 0 :=
  ⟨((isReversed_spec (exampleConfig SequenceOrdering.beforeGoodStatic)).1).mpr (Or.inl rfl),
   ((isReversed_spec (exampleConfig SequenceOrdering.beforeGoodStatic)).2.2.2.1) 0 rfl⟩

/-- C4: for `TWO_DRAWS_DYNAMIC`, `numIterations() = 2`, the first iteration
binds the static (intentionally-wrong) pipeline and draws without any dynamic
state set, and the second iteration binds the dynamic pipeline and sets the
dynamic state before its draws; for `TWO_DRAWS_STATIC` the opposite holds
(recording runs on the swapped configuration: dynamic pipeline bound, state
set before the first iteration's draws, static pipeline bound and drawn
second with no state set); every other ordering records one iteration. -/
theorem numIterations_two_draw_sequences :
    ∀ cfg : TestConfig,
      cfg.getActiveViewportVec ≠ [] →
      cfg.meshParams ≠ [] →
      (cfg.sequenceOrdering = SequenceOrdering.twoDrawsDynamic →
        cfg.numIterations = 2 ∧
        recordedCommands cfg = [recordIteration cfg 0, recordIteration cfg 1] ∧
        Cmd.bindPipeline Pipeline.staticPipeline ∈ recordIteration cfg 0 ∧
        Cmd.draw ∈ recordIteration cfg 0 ∧
        Cmd.setDynamicStates ∉ recordIteration cfg 0 ∧
        Cmd.bindPipeline Pipeline.dynamicPipeline ∉ recordIteration cfg 0 ∧
        Cmd.bindPipeline Pipeline.dynamicPipeline ∈ recordIteration cfg 1 ∧
        Cmd.bindPipeline Pipeline.staticPipeline ∉ recordIteration cfg 1 ∧
        (∃ a b, recordIteration cfg 1 = a ++ b ∧
          Cmd.setDynamicStates ∈ a ∧ Cmd.draw ∉ a ∧
          Cmd.draw ∈ b ∧ Cmd.setDynamicStates ∉ b)) ∧
      (cfg.sequenceOrdering = SequenceOrdering.twoDrawsStatic →
        cfg.numIterations = 2 ∧
        recordedCommands cfg =
          [recordIteration cfg.swapValues 0, recordIteration cfg.swapValues 1] ∧
        Cmd.bindPipeline Pipeline.dynamicPipeline ∈ recordIteration cfg.swapValues 0 ∧
        Cmd.bindPipeline Pipeline.staticPipeline ∉ recordIteration cfg.swapValues 0 ∧
        (∃ a b, recordIteration cfg.swapValues 0 = a ++ b ∧
          Cmd.setDynamicStates ∈ a ∧ Cmd.draw ∉ a ∧
          Cmd.draw ∈ b ∧ Cmd.setDynamicStates ∉ b) ∧
        Cmd.bindPipeline Pipeline.staticPipeline ∈ recordIteration cfg.swapValues 1 ∧
        Cmd.draw ∈ recordIteration cfg.swapValues 1 ∧
        Cmd.setDynamicStates ∉ recordIteration cfg.swapValues 1 ∧
        Cmd.bindPipeline Pipeline.dynamicPipeline ∉ recordIteration cfg.swapValues 1) ∧
      (cfg.sequenceOrdering ≠ SequenceOrdering.twoDrawsDynamic →
        cfg.sequenceOrdering ≠ SequenceOrdering.twoDrawsStatic →
        cfg.numIterations = 1) := by
  intro cfg hv hm
  refine ⟨?_, ?_, ?_⟩
  · intro h
    have hrev : cfg.isReversed = false := by
      simp [TestConfig.isReversed, h]
    have hnum : cfg.numIterations = 2 := by
      simp [TestConfig.numIterations, h]
    refine ⟨hnum, ?_, ?_, ?_, ?_, ?_, ?_, ?_, ?_⟩
    · simp [recordedCommands, hrev, hnum, List.range_succ]
    · simp [recordIteration, bindStaticFirst, h]
    · simp only [recordIteration, bindStaticFirst, h]
      simp
      exact draw_mem_drawCommands cfg hv hm
    · simp only [recordIteration, bindStaticFirst, h]
      simp
      exact setDynamicStates_not_mem_drawCommands cfg (by simp [h])
    · simp only [recordIteration, bindStaticFirst, h]
      simp
      intro hx
      rcases mem_drawCommands hx with h1 | h1 <;> simp at h1
    · simp [recordIteration, bindStaticFirst, h]
    · simp only [recordIteration, bindStaticFirst, h]
      simp
      intro hx
      rcases mem_drawCommands hx with h1 | h1 <;> simp at h1
    · refine ⟨(if cfg.bindUnusedMeshShadingPipeline then
          [Cmd.bindPipeline Pipeline.meshNoOutPipeline] else []) ++
        (if cfg.useExtraDynPCPPipeline then
          [Cmd.bindPipeline Pipeline.extraDynPCPPipeline, Cmd.setPatchControlPoints,
           Cmd.drawHelper] else []) ++
        [Cmd.bindPipeline Pipeline.dynamicPipeline, Cmd.setDynamicStates],
        drawCommands cfg, ?_, ?_, ?_, ?_, ?_⟩
      · simp [recordIteration, bindStaticFirst, h]
      · simp
      · cases hbu : cfg.bindUnusedMeshShadingPipeline <;>
          cases hue : cfg.useExtraDynPCPPipeline <;> simp
      · exact draw_mem_drawCommands cfg hv hm
      · exact setDynamicStates_not_mem_drawCommands cfg (by simp [h])
  · intro h
    have hrev : cfg.isReversed = true := by
      simp [TestConfig.isReversed, h]
    have hnum : cfg.numIterations = 2 := by
      simp [TestConfig.numIterations, h]
    have h2 : cfg.swapValues.sequenceOrdering = SequenceOrdering.twoDrawsStatic := h
    have hv2 : cfg.swapValues.getActiveViewportVec ≠ [] := by
      rw [TestConfig.getActiveViewportVec_swap]
      exact hv
    have hm2 : cfg.swapValues.meshParams ≠ [] := hm
    refine ⟨hnum, ?_, ?_, ?_, ?_, ?_, ?_, ?_, ?_⟩
    · simp [recordedCommands, hrev, hnum, List.range_succ]
    · simp [recordIteration, bindStaticFirst, h2]
    · simp only [recordIteration, bindStaticFirst, h2]
      simp
      intro hx
      rcases mem_drawCommands hx with h1 | h1 <;> simp at h1
    · refine ⟨(if cfg.swapValues.bindUnusedMeshShadingPipeline then
          [Cmd.bindPipeline Pipeline.meshNoOutPipeline] else []) ++
        (if cfg.swapValues.useExtraDynPCPPipeline then
          [Cmd.bindPipeline Pipeline.extraDynPCPPipeline, Cmd.setPatchControlPoints,
           Cmd.drawHelper] else []) ++
        [Cmd.bindPipeline Pipeline.dynamicPipeline, Cmd.setDynamicStates],
        drawCommands cfg.swapValues, ?_, ?_, ?_, ?_, ?_⟩
      · simp [recordIteration, bindStaticFirst, h2]
      · simp
      · cases hbu : cfg.swapValues.bindUnusedMeshShadingPipeline <;>
          cases hue : cfg.swapValues.useExtraDynPCPPipeline <;> simp
      · exact draw_mem_drawCommands cfg.swapValues hv2 hm2
      · exact setDynamicStates_not_mem_drawCommands cfg.swapValues (by simp [h2])
    · simp [recordIteration, bindStaticFirst, h2]
    · simp only [recordIteration, bindStaticFirst, h2]
      simp
      exact draw_mem_drawCommands cfg.swapValues hv2 hm2
    · simp only [recordIteration, bindStaticFirst, h2]
      simp
      exact setDynamicStates_not_mem_drawCommands cfg.swapValues (by simp [h2])
    · simp only [recordIteration, bindStaticFirst, h2]
      simp
      intro hx
      rcases mem_drawCommands hx with h1 | h1 <;> simp at h1
  · intro h1 h2
    cases ho : cfg.sequenceOrdering <;>
      simp [TestConfig.numIterations, ho] at h1 h2 ⊢
/-- C4 witness: the example configuration at `TWO_DRAWS_DYNAMIC` has a
non-empty viewport list and mesh list and records two iterations. -/
theorem numIterations_two_draw_sequences_witness :
    (exampleConfig SequenceOrdering.twoDrawsDynamic).getActiveViewportVec ≠ [] ∧
    (exampleConfig SequenceOrdering.twoDrawsDynamic).meshParams ≠ [] ∧
    (exampleConfig SequenceOrdering.twoDrawsDynamic).numIterations = 2 :=
  ⟨by decide, by decide,
   ((numIterations_two_draw_sequences (exampleConfig SequenceOrdering.twoDrawsDynamic)
      (by decide) (by decide)).1 rfl).1⟩

theorem referenceStencil_of_mem {face : VkStencilFaceFlags} {compareOp : VkCompareOp}
    {opCase : StencilOpCase} {clearVal refVal : deUint8} {c : StencilSubCase}
    (hc : c ∈ stencilSubCases face compareOp opCase clearVal refVal) :
    c.referenceStencil = refVal := by
  simp only [stencilSubCases, List.mem_map] at hc
  obtain ⟨i, -, rfl⟩ := hc
  rfl

theorem stencilRefVals_bounds {clearVal : deUint8} {r : Int}
    (hr : r ∈ stencilRefVals clearVal) : 0 ≤ r ∧ r ≤ 255 := by
  simp only [stencilRefVals, List.mem_filterMap] at hr
  obtain ⟨delta, -, hs⟩ := hr
  split at hs
  · simp at hs
  · rename_i hout
    rw [Option.some_inj] at hs
    omega

/-- C8: for every tuple enumerated by the stencil test generator, a depth-fail
sub-case is generated iff `stencilPasses(compareOp, clearValue, reference)`
holds (two sub-cases when the stencil test would pass, one otherwise); the
expected rendered color is the mesh (triangle) color exactly when the combined
stencil+depth result passes (stencil passes and the sub-case is not
depth-fail); and the expected final stencil value is
`stencilResult(stencilOp, clearValue, reference, 0, 255)`. -/
theorem stencilSubCases_oracle :
    ∀ (face : VkStencilFaceFlags) (compareOp : VkCompareOp) (opCase : StencilOpCase)
      (clearVal refVal : deUint8),
      (stencilSubCases face compareOp opCase clearVal refVal).length =
        (if stencilPasses compareOp clearVal refVal then 2 else 1) ∧
      ((stencilSubCases face compareOp opCase clearVal refVal).any (fun c => c.depthFail)) =
        stencilPasses compareOp clearVal refVal ∧
      (∀ c ∈ stencilSubCases face compareOp opCase clearVal refVal,
        (c.referenceColor = kDefaultTriangleColor ↔
          (stencilPasses compareOp clearVal refVal = true ∧ c.depthFail = false)) ∧
        c.referenceColor =
          (if c.globalPass then kDefaultTriangleColor else kDefaultClearColor) ∧
        c.globalPass = (stencilPasses compareOp clearVal refVal && !c.depthFail) ∧
        c.expectedStencil = stencilResult opCase.stencilOp clearVal refVal 0 255) := by
  intro face compareOp opCase clearVal refVal
  have hne : kDefaultClearColor ≠ kDefaultTriangleColor := by decide
  cases hwp : stencilPasses compareOp clearVal refVal <;>
    simp [stencilSubCases, hwp, kMinVal, kMaxVal, List.range_succ, hne]

/-- C8 witness: the pass sub-case generated for
`(FRONT, ALWAYS, KEEP, clear 102, ref 102)`. -/
theorem stencilSubCases_oracle_witness :
    (⟨1, VkCompareOp.always, VkStencilOp.keep, 102, 102, false, true,
      kDefaultTriangleColor, 102⟩ : StencilSubCase) ∈
      stencilSubCases 1 VkCompareOp.always
        ⟨VkStencilOp.keep, "keep", [102], VkStencilOp.zero⟩ 102 102 ∧
    (102 : deUint8) = stencilResult VkStencilOp.keep 102 102 0 255 :=
  ⟨by decide,
   ((stencilSubCases_oracle 1 VkCompareOp.always
      ⟨VkStencilOp.keep, "keep", [102], VkStencilOp.zero⟩ 102 102).2.2
      ⟨1, VkCompareOp.always, VkStencilOp.keep, 102, 102, false, true,
        kDefaultTriangleColor, 102⟩
      (by decide)).2.2.2⟩

/-- C9: a derived reference value `clearVal + delta` (plain integer
arithmetic) is used exactly when it lies in `[0, 255]`; out-of-range values
are skipped, so every generated configuration's reference stencil value fits
in 8 bits. -/
theorem stencilRefVals_in_range :
    (∀ (clearVal : deUint8) (r : Int),
      r ∈ stencilRefVals clearVal ↔
        ((∃ delta ∈ ([-1, 0, 1] : List Int), r = (clearVal : Int) + delta) ∧
         0 ≤ r ∧ r ≤ 255)) ∧
    (∀ c ∈ stencilTestCases, c.referenceStencil < 256) := by
  constructor
  · intro clearVal r
    simp only [stencilRefVals, List.mem_filterMap]
    constructor
    · rintro ⟨delta, hd, hs⟩
      split at hs
      · simp at hs
      · rename_i hout
        rw [Option.some_inj] at hs
        exact ⟨⟨delta, hd, by omega⟩, by omega, by omega⟩
    · rintro ⟨⟨delta, hd, rfl⟩, h0, h255⟩
      refine ⟨delta, hd, ?_⟩
      rw [if_neg (by omega)]
  · intro c hc
    simp only [stencilTestCases, List.mem_flatMap] at hc
    obtain ⟨face, -, hc⟩ := hc
    obtain ⟨comp, -, hc⟩ := hc
    obtain ⟨opCase, -, hc⟩ := hc
    obtain ⟨clearVal, -, hc⟩ := hc
    obtain ⟨refVal, hrv, hc⟩ := hc
    have h1 := referenceStencil_of_mem hc
    have h2 := stencilRefVals_bounds hrv
    rw [h1]
    omega

/-- C9 witness: a generated case (fail sub-case of
`(FRONT, NEVER, KEEP, clear 102, ref 101)`) with an in-range reference. -/
theorem stencilRefVals_in_range_witness :
    (⟨1, VkCompareOp.never, VkStencilOp.keep, 102, 101, false, false,
      kDefaultClearColor, 102⟩ : StencilSubCase) ∈ stencilTestCases ∧
    (⟨1, VkCompareOp.never, VkStencilOp.keep, 102, 101, false, false,
      kDefaultClearColor, 102⟩ : StencilSubCase).referenceStencil < 256 :=
  ⟨by decide,
   stencilRefVals_in_range.2 ⟨1, VkCompareOp.never, VkStencilOp.keep, 102, 101, false, false,
      kDefaultClearColor, 102⟩ (by decide)⟩

end ExtendedDynamicState
